import Mathlib

/-!
Formal model of `src/server/server.c` of the Dinamic-Clipboard repository:
a minimal Unix-domain-socket server that accepts one connection at a time,
receives one message, replies with a fixed acknowledgment, and closes the
connection.

The three source functions are embedded as pure Lean functions over explicit
environments describing the results of the operating-system calls
(`socket`, `bind`, `listen`, `accept`, `recv`, `send`).  Each embedded
function returns a record describing the observable effects of one run:
the system calls issued with their arguments, the log lines printed, the
payload handed to `send`, the final buffer contents, and the return value.
-/

/-! ## Constants of the source -/

/-- Capacity of the per-connection message buffer: `char buffer[256]`. -/
def bufferSize : Nat := 256

/-- Fixed filesystem path of the server endpoint:
`strcpy(server_address.sun_path, "/tmp/arq_socket")`. -/
def socketPath : String := "/tmp/arq_socket"

/-- Fixed response text: `const char* response = "ACK Server"`. -/
def response : String := "ACK Server"

/-- Byte sequence handed to `send`: the characters of `response`, with the
length argument `strlen(response)`, hence no trailing terminator byte. -/
def responseBytes : List Nat := response.data.map Char.toNat

/-! ## Log lines -/

/-- One line of process output.  `puts` calls produce `plain` lines; the
`printf("Cliente: %s\n", buffer)` call produces a `cliente` line carrying
the bytes of the C string read from the buffer (up to its first 0 byte). -/
inductive LogLine where
  | plain (s : String)
  | cliente (bytes : List Nat)
  deriving DecidableEq

/-! ## Byte-buffer primitives -/

/-- Bytes of the C string stored in a byte region: everything before the
first 0 byte. -/
def cstring (l : List Nat) : List Nat := l.takeWhile (fun b => b ≠ 0)

/-- Effect of a successful `recv` that reported `data.length` bytes: the
delivered bytes overwrite the front of the buffer, the rest is untouched. -/
def storeBytes (buf data : List Nat) : List Nat :=
  data ++ buf.drop data.length

/-- Write one byte at index `i`, with an explicit bounds check: writing past
the end of the region is undefined behavior in the source and is modelled
as `none`. -/
def setByte (buf : List Nat) (i v : Nat) : Option (List Nat) :=
  if i < buf.length then some (buf.set i v) else none

/-! ## Session handler: `handle_client` -/

/-- Result reported by the `recv` call on a connection: an error (negative
return value), or a successful delivery of `data` (return value
`data.length`). -/
inductive RecvOutcome where
  | err
  | ok (data : List Nat)
  deriving DecidableEq

/-- A receive outcome is well formed when it honors the byte bound that
`handle_client` passes to `recv`, namely `sizeof(buffer) - 1 = 255`:
`recv` never delivers more bytes than requested. -/
def RecvOutcome.wf : RecvOutcome → Prop
  | .err => True
  | .ok data => data.length ≤ bufferSize - 1

instance : DecidablePred RecvOutcome.wf := fun ro => by
  cases ro <;> simp [RecvOutcome.wf] <;> infer_instance

/-- Maximal delivery of a single `recv` on a stream socket, modelled from
POSIX (the `recv` system call is not part of this repository): when the
client's pending message is fully available, one `recv` bounded by
`requested` bytes delivers exactly the first `requested` bytes of it. -/
def recvDeliver (msg : List Nat) (requested : Nat) : List Nat :=
  msg.take requested

/-- Observable effects of one `handle_client` run. -/
structure HandleResult where
  /-- Byte counts requested by the `recv` calls issued, in order. -/
  recvCalls : List Nat
  /-- Payloads handed to the `send` calls issued, in order. -/
  sendCalls : List (List Nat)
  /-- Log lines printed, in order. -/
  logs : List LogLine
  /-- Final contents of the message buffer; `none` marks the undefined
  behavior of a terminator write past the end of the buffer. -/
  buffer : Option (List Nat)
  deriving DecidableEq

/-- Embedding of `handle_client(int client_socket)`.  `initBuf` is the
(uninitialized) content of the stack buffer `char buffer[256]` at entry,
`ro` the result of the single `recv` call, `sendRes` the return value of
the `send` call (consulted only if `send` is reached). -/
def handle_client (initBuf : List Nat) (ro : RecvOutcome) (sendRes : Int) :
    HandleResult :=
  let requested := bufferSize - 1
  match ro with
  | .err =>
      { recvCalls := [requested]
        sendCalls := []
        logs := [.plain "Erro ao receber dados do cliente"]
        buffer := some initBuf }
  | .ok data =>
      let n := data.length
      let buf1 := storeBytes initBuf data
      match setByte buf1 n 0 with
      | none =>
          { recvCalls := [requested], sendCalls := [], logs := [],
            buffer := none }
      | some buf2 =>
          let r0 : HandleResult :=
            { recvCalls := [requested]
              sendCalls := [responseBytes]
              logs := [.cliente (cstring buf2)]
              buffer := some buf2 }
          if sendRes < 0 then
            { r0 with logs := r0.logs ++ [.plain "Erro ao enviar dados para o cliente"] }
          else
            { r0 with logs := r0.logs ++ [.plain "Resposta enviada"] }

/-! ## Listener loop: `init_server` -/

/-- Per-connection environment of one loop iteration that accepted a
client: the stack garbage in the handler's buffer, the `recv` result and
the `send` result. -/
structure ConnInput where
  initBuf : List Nat
  ro : RecvOutcome
  sendRes : Int
  deriving DecidableEq

/-- Result of the `accept` call of one loop iteration. -/
inductive AcceptOutcome where
  | err
  | ok (conn : ConnInput)
  deriving DecidableEq

/-- Observable effects of one iteration of the `while (1)` loop. -/
structure IterResult where
  logs : List LogLine
  /-- The handler run of this iteration, if a client was accepted. -/
  handled : Option HandleResult
  /-- Whether `close(client_socket)` was executed this iteration. -/
  closed : Bool
  deriving DecidableEq

/-- Control state of the listener: either about to run another accept
iteration, or terminated. -/
inductive RunState where
  | accepting
  | terminated
  deriving DecidableEq

/-- Embedding of one iteration of the loop body of `init_server()`:
the effects of the iteration and the control state the loop is in
afterwards.  Both branches of the body (`continue` after a failed accept,
fall-through after handling and closing) lead back to `accepting`. -/
def init_server_iter : AcceptOutcome → IterResult × RunState
  | .err =>
      ({ logs := [.plain "Aguardando conexao do cliente...",
                  .plain "Erro ao aceitar a conexao"]
         handled := none
         closed := false }, .accepting)
  | .ok conn =>
      let h := handle_client conn.initBuf conn.ro conn.sendRes
      ({ logs := [.plain "Aguardando conexao do cliente...",
                  .plain "Cliente conectado"]
           ++ h.logs ++ [.plain "Conexao encerrada"]
         handled := some h
         closed := true }, .accepting)

/-- Control state of `init_server` after `n` iterations, given the stream
`env` of accept outcomes. -/
def init_server_run (env : Nat → AcceptOutcome) : Nat → RunState
  | 0 => .accepting
  | n + 1 =>
      match init_server_run env n with
      | .accepting => (init_server_iter (env n)).2
      | .terminated => .terminated

/-- Effects of the `n`-th loop iteration under the environment stream
`env` (iterations are numbered from 0). -/
def init_server_trace (env : Nat → AcceptOutcome) (n : Nat) : IterResult :=
  (init_server_iter (env n)).1

/-! ## Startup: `start_server` -/

/-- Socket domain argument of the `socket` call. -/
inductive SockDomain where
  | af_unix
  deriving DecidableEq

/-- Socket type argument of the `socket` call. -/
inductive SockType where
  | sock_stream
  deriving DecidableEq

/-- Arguments of a `bind` call: the path in the `sockaddr_un` structure and
the address-length argument. -/
structure BindCall where
  path : String
  addrlen : Nat
  deriving DecidableEq

/-- A system call issued by `start_server`, with its arguments. -/
inductive Syscall where
  | socket (domain : SockDomain) (type : SockType) (protocol : Nat)
  | bind (c : BindCall)
  | listen (backlog : Nat)
  deriving DecidableEq

/-- Observable effects of one `start_server` run. -/
structure StartResult where
  /-- System calls issued, in order. -/
  calls : List Syscall
  logs : List LogLine
  ret : Int
  deriving DecidableEq

/-- Address-length argument the source passes to `bind`.  In the source the
comparison `< 0` sits inside the argument list —
`bind(server_socket, (struct sockaddr *)&server_address, sizeof(server_address) < 0)`
— so the third argument is the integer value of the comparison
`sizeof(server_address) < 0`, which is 0 because `sizeof` is unsigned. -/
def bindLenArg (sizeofAddr : Nat) : Nat :=
  if sizeofAddr < 0 then 1 else 0

/-- The `bind` call `start_server` issues, for a given value of
`sizeof(struct sockaddr_un)`. -/
def bindCallOf (sizeofAddr : Nat) : BindCall :=
  { path := socketPath, addrlen := bindLenArg sizeofAddr }

/-- Embedding of `start_server()`.  `sizeofAddr` is the platform's
`sizeof(struct sockaddr_un)`; `socketRes` and `listenRes` are the return
values of the `socket` and `listen` calls; `bindOS` gives the operating
system's response to a `bind` call as a function of its arguments.  The
source checks `if (bind(...))`, so any nonzero `bind` result is treated as
the bind failure. -/
def start_server (sizeofAddr : Nat) (socketRes : Int)
    (bindOS : BindCall → Int) (listenRes : Int) : StartResult :=
  let sockCall := Syscall.socket .af_unix .sock_stream 0
  if socketRes < 0 then
    { calls := [sockCall]
      logs := [.plain "Erro na criacao do server_socket."]
      ret := -1 }
  else
    let bc := bindCallOf sizeofAddr
    if bindOS bc ≠ 0 then
      { calls := [sockCall, .bind bc]
        logs := [.plain "Erro ao vincular o server_socket"]
        ret := -1 }
    else if listenRes < 0 then
      { calls := [sockCall, .bind bc, .listen 5]
        logs := [.plain "Erro ao colocar o server_socket em listen"]
        ret := -1 }
    else
      { calls := [sockCall, .bind bc, .listen 5]
        logs := [.plain "Servidor iniciado e escutando..."]
        ret := 0 }

/-- Typical size of `struct sockaddr_un` (110 bytes on Linux); the model's
conclusions do not depend on this value. -/
def sizeofSockaddrUn : Nat := 110

/-- Minimum address length a Unix-domain `bind` accepts: the address must at
least contain its `sa_family` field (2 bytes). -/
def sizeofSaFamily : Nat := 2

/-- Modelled from the spec and POSIX (the `bind` system call itself is not
part of this repository): `bind` fails — returns a nonzero (negative)
result — when the socket path is already in use or inaccessible (the
spec's `BindError` condition), and also when the supplied address length is
too small to contain the address (POSIX `EINVAL`); otherwise it succeeds
and returns 0. -/
def osBind (pathBusyOrInaccessible : Bool) (c : BindCall) : Int :=
  if pathBusyOrInaccessible ∨ c.addrlen < sizeofSaFamily then -1 else 0

/-! ## Helper lemmas -/

theorem set_append_len (a b : List Nat) (v : Nat) :
    (a ++ b).set a.length v = a ++ b.set 0 v := by
  induction a with
  | nil => simp
  | cons x xs ih => simp [List.set, ih]

theorem getElem_append_len (a b : List Nat) (v : Nat) :
    (a ++ v :: b)[a.length]? = some v := by
  induction a with
  | nil => simp
  | cons x xs ih => simpa using ih

theorem cstring_append_zero (a b : List Nat) :
    cstring (a ++ 0 :: b) = a.takeWhile (fun x => decide (x ≠ 0)) := by
  induction a with
  | nil => simp [cstring]
  | cons x xs ih =>
      by_cases hx : x = 0
      · simp [cstring, List.takeWhile, hx]
      · simp [cstring, List.takeWhile, hx] at ih ⊢
        exact ih

theorem storeBytes_set_terminator (init data : List Nat)
    (hinit : init.length = bufferSize) (hdata : data.length ≤ bufferSize - 1) :
    setByte (storeBytes init data) data.length 0 =
      some (data ++ 0 :: init.drop (data.length + 1)) := by
  have hlen : (storeBytes init data).length = bufferSize := by
    simp [storeBytes, hinit]
    simp [bufferSize] at hdata ⊢
    omega
  have hlt : data.length < (storeBytes init data).length := by
    simp [bufferSize] at hdata hlen
    omega
  have hne : init.drop data.length ≠ [] := by
    intro hnil
    have := List.drop_eq_nil_iff.mp hnil
    simp [bufferSize] at hdata this
    omega
  have hset : (storeBytes init data).set data.length 0 =
      data ++ 0 :: init.drop (data.length + 1) := by
    unfold storeBytes
    rw [set_append_len]
    cases hd : init.drop data.length with
    | nil => exact absurd hd hne
    | cons y ys =>
        have : ys = init.drop (data.length + 1) := by
          have := List.tail_drop init data.length
          rw [hd] at this
          simpa using this
        simp [List.set, hd, this]
  simp [setByte, hlt, hset]

/-- Characterization of `handle_client` on a well-formed successful receive:
the requested byte count, the fixed response payload, the printed client
string, and the final buffer contents. -/
theorem handle_client_ok (init data : List Nat) (s : Int)
    (hinit : init.length = bufferSize) (hdata : data.length ≤ bufferSize - 1) :
    handle_client init (.ok data) s =
      { recvCalls := [bufferSize - 1]
        sendCalls := [responseBytes]
        logs := [.cliente (data.takeWhile (fun x => decide (x ≠ 0))),
                 if s < 0 then .plain "Erro ao enviar dados para o cliente"
                 else .plain "Resposta enviada"]
        buffer := some (data ++ 0 :: init.drop (data.length + 1)) } := by
  have hset := storeBytes_set_terminator init data hinit hdata
  by_cases hs : s < 0 <;>
    simp [handle_client, hset, hs, cstring_append_zero]

/-- Characterization of `handle_client` when the receive over-delivers
past the buffer: the terminator write is out of bounds (undefined
behavior).  Unreachable when `recv` honors its 255-byte bound. -/
theorem handle_client_ub (init data : List Nat) (s : Int)
    (hinit : init.length = bufferSize) (hdata : bufferSize ≤ data.length) :
    handle_client init (.ok data) s =
      { recvCalls := [bufferSize - 1], sendCalls := [], logs := [],
        buffer := none } := by
  have hset : setByte (storeBytes init data) data.length 0 = none := by
    simp [setByte, storeBytes, hinit]
    simp [bufferSize] at hdata ⊢
    omega
  simp [handle_client, hset]

theorem init_server_iter_snd (a : AcceptOutcome) :
    (init_server_iter a).2 = .accepting := by
  cases a <;> rfl

/-! ## Claim theorems -/

/-- C1: after a successful receive of any byte sequence of length 0 through
255 on a fresh connection, the session handler hands `send` exactly the
fixed 10-byte ASCII payload "ACK Server" with no terminator byte in it,
independent of the received content, and the listener then closes the
connection. -/
theorem handle_client_sends_fixed_ack (init data : List Nat) (s : Int)
    (hinit : init.length = bufferSize) (hdata : data.length ≤ bufferSize - 1)
    (_hs : 0 ≤ s) :
    (handle_client init (.ok data) s).sendCalls = [responseBytes] ∧
    responseBytes = [65, 67, 75, 32, 83, 101, 114, 118, 101, 114] ∧
    responseBytes.length = 10 ∧
    (∀ b ∈ responseBytes, 0 < b ∧ b < 128) ∧
    (init_server_iter (.ok ⟨init, .ok data, s⟩)).1.closed = true := by
  refine ⟨?_, by decide, by decide, by decide, rfl⟩
  rw [handle_client_ok init data s hinit hdata]

/-- Witness for C1 at a concrete input. -/
theorem handle_client_sends_fixed_ack_witness :
    (handle_client (List.replicate 256 0) (.ok [72, 105]) 0).sendCalls =
      [responseBytes] :=
  (handle_client_sends_fixed_ack (List.replicate 256 0) [72, 105] 0
    (by rw [List.length_replicate]; rfl) (by decide) (by decide)).1

/-- C2 (code bug evidence): with the socket path free and accessible and
socket creation successful, `start_server` still reports the bind error,
returns -1, and never reaches the listen step — the source passes the
comparison `sizeof(server_address) < 0` (value 0) as the address-length
argument of `bind`, so the bind call fails regardless of the path state. -/
theorem start_server_bind_error_on_free_path :
    (start_server sizeofSockaddrUn 0 (osBind false) 0).ret = -1 ∧
    (start_server sizeofSockaddrUn 0 (osBind false) 0).logs =
      [.plain "Erro ao vincular o server_socket"] ∧
    Syscall.listen 5 ∉ (start_server sizeofSockaddrUn 0 (osBind false) 0).calls ∧
    (bindCallOf sizeofSockaddrUn).addrlen = 0 := by
  decide

/-- C3: the handler performs a single receive requesting 255
(capacity-minus-one) bytes into the 256-byte buffer; on a receive of n
bytes the terminator is written at index n, immediately after the received
bytes; a message longer than 255 bytes reaches the handler truncated to
exactly its first 255 bytes. -/
theorem handle_client_single_recv_truncation (init data msg : List Nat)
    (s : Int) (hinit : init.length = bufferSize)
    (hdata : data.length ≤ bufferSize - 1) :
    bufferSize = 256 ∧
    (handle_client init (.ok data) s).recvCalls = [bufferSize - 1] ∧
    (∃ b, (handle_client init (.ok data) s).buffer = some b ∧
      b.take data.length = data ∧ b[data.length]? = some 0) ∧
    recvDeliver msg (bufferSize - 1) = msg.take 255 ∧
    (255 < msg.length → (recvDeliver msg (bufferSize - 1)).length = 255) := by
  refine ⟨rfl, ?_, ?_, rfl, ?_⟩
  · rw [handle_client_ok init data s hinit hdata]
  · rw [handle_client_ok init data s hinit hdata]
    exact ⟨data ++ 0 :: init.drop (data.length + 1), rfl,
      List.take_left data _, getElem_append_len data _ 0⟩
  · intro hlong
    simp [recvDeliver, bufferSize]
    omega

/-- Witness for C3 at a concrete input. -/
theorem handle_client_single_recv_truncation_witness :
    (handle_client (List.replicate 256 9) (.ok [7]) 0).recvCalls =
      [bufferSize - 1] :=
  (handle_client_single_recv_truncation (List.replicate 256 9) [7]
    (List.replicate 300 1) 0 (by rw [List.length_replicate]; rfl) (by decide)).2.1

/-- C4: on a negative receive result the handler logs the receive failure
and returns with no send call and the buffer untouched (no terminator
written); the listener still closes the connection afterwards. -/
theorem handle_client_recv_error (init : List Nat) (s : Int) :
    handle_client init .err s =
      { recvCalls := [bufferSize - 1], sendCalls := [],
        logs := [.plain "Erro ao receber dados do cliente"],
        buffer := some init } ∧
    (init_server_iter (.ok ⟨init, .err, s⟩)).1.closed = true :=
  ⟨rfl, rfl⟩

/-- C5: every accepted connection undergoes exactly one receive and at most
one send — one send when the receive succeeds, none when it fails — and the
listener closes the connection after the handler completes regardless of
outcome, then loops for a fresh connection (no reuse). -/
theorem connection_one_exchange_then_close (conn : ConnInput)
    (hinit : conn.initBuf.length = bufferSize) (hwf : conn.ro.wf) :
    ∃ h, (init_server_iter (.ok conn)).1.handled = some h ∧
      h.recvCalls.length = 1 ∧
      h.sendCalls.length = (match conn.ro with | .err => 0 | .ok _ => 1) ∧
      h.sendCalls.length ≤ 1 ∧
      (init_server_iter (.ok conn)).1.closed = true ∧
      (init_server_iter (.ok conn)).2 = .accepting := by
  have key : (handle_client conn.initBuf conn.ro conn.sendRes).recvCalls.length = 1 ∧
      (handle_client conn.initBuf conn.ro conn.sendRes).sendCalls.length =
        (match conn.ro with | RecvOutcome.err => 0 | RecvOutcome.ok _ => 1) := by
    rcases hro : conn.ro with - | data
    · simp [handle_client]
    · have hdata : data.length ≤ bufferSize - 1 := by rw [hro] at hwf; exact hwf
      rw [handle_client_ok _ _ _ hinit hdata]
      exact ⟨rfl, rfl⟩
  obtain ⟨k1, k2⟩ := key
  refine ⟨handle_client conn.initBuf conn.ro conn.sendRes, rfl, k1, k2, ?_, rfl, rfl⟩
  rw [k2]
  cases conn.ro <;> simp

/-- Witness for C5 at a concrete input. -/
theorem connection_one_exchange_then_close_witness :
    (init_server_iter (.ok ⟨List.replicate 256 0, .ok [1], 0⟩)).1.closed = true := by
  obtain ⟨h, -, -, -, -, hc, -⟩ :=
    connection_one_exchange_then_close ⟨List.replicate 256 0, .ok [1], 0⟩
      (by rw [List.length_replicate]; rfl) (by decide)
  exact hc

/-- C6: an accept failure produces only the log lines of that iteration, no
handler run and no close, and the loop re-enters the accepting state. -/
theorem accept_failure_logs_and_continues :
    init_server_iter .err =
      ({ logs := [.plain "Aguardando conexao do cliente...",
                  .plain "Erro ao aceitar a conexao"],
         handled := none, closed := false }, .accepting) := rfl

/-! ### Branch characterizations of `start_server` -/

theorem start_server_socket_fail (sz : Nat) (sRes lRes : Int)
    (bOS : BindCall → Int) (h : sRes < 0) :
    start_server sz sRes bOS lRes =
      { calls := [.socket .af_unix .sock_stream 0],
        logs := [.plain "Erro na criacao do server_socket."], ret := -1 } := by
  simp [start_server, h]

theorem start_server_bind_fail (sz : Nat) (sRes lRes : Int)
    (bOS : BindCall → Int) (h1 : ¬ sRes < 0) (h2 : bOS (bindCallOf sz) ≠ 0) :
    start_server sz sRes bOS lRes =
      { calls := [.socket .af_unix .sock_stream 0, .bind (bindCallOf sz)],
        logs := [.plain "Erro ao vincular o server_socket"], ret := -1 } := by
  simp [start_server, h1, h2]

theorem start_server_listen_fail (sz : Nat) (sRes lRes : Int)
    (bOS : BindCall → Int) (h1 : ¬ sRes < 0) (h2 : bOS (bindCallOf sz) = 0)
    (h3 : lRes < 0) :
    start_server sz sRes bOS lRes =
      { calls := [.socket .af_unix .sock_stream 0, .bind (bindCallOf sz),
                  .listen 5],
        logs := [.plain "Erro ao colocar o server_socket em listen"],
        ret := -1 } := by
  simp [start_server, h1, h2, h3]

theorem start_server_success (sz : Nat) (sRes lRes : Int)
    (bOS : BindCall → Int) (h1 : ¬ sRes < 0) (h2 : bOS (bindCallOf sz) = 0)
    (h3 : ¬ lRes < 0) :
    start_server sz sRes bOS lRes =
      { calls := [.socket .af_unix .sock_stream 0, .bind (bindCallOf sz),
                  .listen 5],
        logs := [.plain "Servidor iniciado e escutando..."], ret := 0 } := by
  simp [start_server, h1, h2, h3]

/-- C7: `start_server` issues the local stream socket creation, the bind
addressed at the fixed path, and the listen with backlog 5, in exactly that
order; each step runs only if the earlier steps succeeded; every failure is
reported by its log line with return value -1, and only full success logs
the startup line and returns 0. -/
theorem start_server_steps (sz : Nat) (sRes lRes : Int) (bOS : BindCall → Int) :
    (start_server sz sRes bOS lRes).calls <+:
      [Syscall.socket .af_unix .sock_stream 0, .bind (bindCallOf sz),
       .listen 5] ∧
    Syscall.socket .af_unix .sock_stream 0 ∈ (start_server sz sRes bOS lRes).calls ∧
    (Syscall.bind (bindCallOf sz) ∈ (start_server sz sRes bOS lRes).calls ↔
      0 ≤ sRes) ∧
    (Syscall.listen 5 ∈ (start_server sz sRes bOS lRes).calls ↔
      0 ≤ sRes ∧ bOS (bindCallOf sz) = 0) ∧
    (bindCallOf sz).path = socketPath ∧
    ((start_server sz sRes bOS lRes).ret = 0 ∨
      (start_server sz sRes bOS lRes).ret = -1) ∧
    ((start_server sz sRes bOS lRes).ret = 0 ↔
      0 ≤ sRes ∧ bOS (bindCallOf sz) = 0 ∧ 0 ≤ lRes) ∧
    ((start_server sz sRes bOS lRes).logs =
        [.plain "Erro na criacao do server_socket."] ↔ sRes < 0) ∧
    ((start_server sz sRes bOS lRes).logs =
        [.plain "Erro ao vincular o server_socket"] ↔
      0 ≤ sRes ∧ bOS (bindCallOf sz) ≠ 0) ∧
    ((start_server sz sRes bOS lRes).logs =
        [.plain "Erro ao colocar o server_socket em listen"] ↔
      0 ≤ sRes ∧ bOS (bindCallOf sz) = 0 ∧ lRes < 0) ∧
    ((start_server sz sRes bOS lRes).logs =
        [.plain "Servidor iniciado e escutando..."] ↔
      (start_server sz sRes bOS lRes).ret = 0) := by
  by_cases h1 : sRes < 0
  · have h1' : ¬ (0 : Int) ≤ sRes := Int.not_le.mpr h1
    rw [start_server_socket_fail sz sRes lRes bOS h1]
    refine ⟨⟨[.bind (bindCallOf sz), .listen 5], rfl⟩, by simp, by simp [h1'],
      by simp [h1'], rfl, by simp, by simp [h1'], by simp [h1], ?_, ?_, ?_⟩
    · simp [h1']
    · simp [h1']
    · simp
  · have h1' : (0 : Int) ≤ sRes := Int.not_lt.mp h1
    by_cases h2 : bOS (bindCallOf sz) = 0
    · by_cases h3 : lRes < 0
      · have h3' : ¬ (0 : Int) ≤ lRes := Int.not_le.mpr h3
        rw [start_server_listen_fail sz sRes lRes bOS h1 h2 h3]
        refine ⟨⟨[], by simp⟩, by simp, by simp [h1'], by simp [h1', h2], rfl,
          by simp, by simp [h3'], by simp [h1'], by simp [h2], ?_, ?_⟩
        · simp [h1', h2, h3]
        · simp
      · have h3' : (0 : Int) ≤ lRes := Int.not_lt.mp h3
        rw [start_server_success sz sRes lRes bOS h1 h2 h3]
        refine ⟨⟨[], by simp⟩, by simp, by simp [h1'], by simp [h1', h2], rfl,
          by simp, by simp [h1', h2, h3'], by simp [h1], by simp [h2], ?_, ?_⟩
        · simp [h3]
        · simp
    · rw [start_server_bind_fail sz sRes lRes bOS h1 h2]
      refine ⟨⟨[.listen 5], rfl⟩, by simp, by simp [h1'], by simp [h2], rfl,
        by simp, by simp [h2], by simp [h1], by simp [h1', h2], ?_, ?_⟩
      · simp [h2]
      · simp

/-- Witness for C7 at a concrete input (all three steps succeed). -/
theorem start_server_steps_witness :
    Syscall.socket .af_unix .sock_stream 0 ∈
      (start_server 110 0 (fun _ => 0) 0).calls :=
  (start_server_steps 110 0 0 (fun _ => 0)).2.1

/-- C8: no session state leaks across connections.  The effects of a loop
iteration depend only on that iteration's own inputs; the observable
handler outputs (log lines and send payloads) do not depend on the initial
buffer contents, so stack garbage left by earlier connections is never
observable; and a successful exchange always produces the same fixed
response payload. -/
theorem no_state_leak_across_connections :
    (∀ env env' : Nat → AcceptOutcome, ∀ n : Nat, env n = env' n →
      init_server_trace env n = init_server_trace env' n) ∧
    (∀ i1 i2 : List Nat, ∀ ro : RecvOutcome, ∀ s : Int,
      i1.length = bufferSize → i2.length = bufferSize →
      (handle_client i1 ro s).sendCalls = (handle_client i2 ro s).sendCalls ∧
      (handle_client i1 ro s).logs = (handle_client i2 ro s).logs) ∧
    (∀ init data : List Nat, ∀ s : Int, init.length = bufferSize →
      data.length ≤ bufferSize - 1 →
      (handle_client init (.ok data) s).sendCalls = [responseBytes]) := by
  refine ⟨?_, ?_, ?_⟩
  · intro env env' n h
    simp [init_server_trace, h]
  · intro i1 i2 ro s h1 h2
    cases ro with
    | err => exact ⟨rfl, rfl⟩
    | ok data =>
        by_cases hd : data.length ≤ bufferSize - 1
        · rw [handle_client_ok i1 data s h1 hd, handle_client_ok i2 data s h2 hd]
          exact ⟨rfl, rfl⟩
        · have hge : bufferSize ≤ data.length := by
            simp [bufferSize] at hd ⊢
            omega
          rw [handle_client_ub i1 data s h1 hge, handle_client_ub i2 data s h2 hge]
          exact ⟨rfl, rfl⟩
  · intro init data s hinit hdata
    rw [handle_client_ok init data s hinit hdata]

/-- Witness for C8 at concrete inputs: two different initial buffer
contents give the same send payloads. -/
theorem no_state_leak_across_connections_witness :
    (handle_client (List.replicate 256 7) (.ok [1, 2]) 0).sendCalls =
      (handle_client (List.replicate 256 9) (.ok [1, 2]) 0).sendCalls :=
  (no_state_leak_across_connections.2.1 (List.replicate 256 7)
    (List.replicate 256 9) (.ok [1, 2]) 0
    (by rw [List.length_replicate]; rfl) (by rw [List.length_replicate]; rfl)).1

/-- C9: once the accept loop has begun it never terminates on its own:
after any number of iterations under any environment the loop is again in
the accepting state, and every single iteration — accept failure or handled
connection — leads back to the accepting state. -/
theorem run_loop_never_terminates (env : Nat → AcceptOutcome) (n : Nat) :
    init_server_run env n = .accepting ∧
    (init_server_iter (env n)).2 = .accepting := by
  constructor
  · induction n with
    | zero => rfl
    | succ k ih => simp [init_server_run, ih, init_server_iter_snd]
  · exact init_server_iter_snd (env n)

/-- C10: for every receive that honors the requested bound of 255 bytes,
the terminator write lands inside the 256-byte buffer: the write index is
strictly below the buffer length, the checked write does not fail, and the
final buffer still has exactly 256 bytes. -/
theorem terminator_write_in_bounds (init data : List Nat) (s : Int)
    (hinit : init.length = bufferSize) (hdata : data.length ≤ bufferSize - 1) :
    data.length < (storeBytes init data).length ∧
    setByte (storeBytes init data) data.length 0 ≠ none ∧
    ∃ b, (handle_client init (.ok data) s).buffer = some b ∧
      b.length = bufferSize := by
  have hset := storeBytes_set_terminator init data hinit hdata
  refine ⟨?_, ?_, ?_⟩
  · simp [storeBytes, hinit]
    simp [bufferSize] at hdata ⊢
    omega
  · rw [hset]
    simp
  · rw [handle_client_ok init data s hinit hdata]
    refine ⟨_, rfl, ?_⟩
    simp [hinit]
    simp [bufferSize] at hdata ⊢
    omega

/-- Witness for C10 at a concrete input. -/
theorem terminator_write_in_bounds_witness :
    setByte (storeBytes (List.replicate 256 3) [4, 5, 6]) [4, 5, 6].length 0 ≠
      none :=
  (terminator_write_in_bounds (List.replicate 256 3) [4, 5, 6] 0
    (by rw [List.length_replicate]; rfl) (by decide)).2.1
